import Mathlib

/-
Verification of the Threads average-impressions utility (src/main.py).

Shallow embedding conventions:
* A parsed JSON value is a `Json`; Python `None` and JSON `null` are the same
  object in Python, so both are `Json.null`.  JSON numbers are modelled as
  integers (the insights metric is an integer count).
* The network is an oracle `ApiOutcome` per HTTP call:
  - `success body`   : 2xx response whose body parsed as `body`;
  - `httpFailure status body excText` : `requests.get` or `raise_for_status`
     raised a `requests.RequestException` with the local `response` bound,
     carrying the HTTP `status`, the JSON parse of the response body
     (`none` when the body is not valid JSON) and `str(e) = excText`;
  - `networkFailure` : `requests.get` raised with no response received, so
     the local variable `response` was never assigned.
* Exceptions are `Except PyError`; `PyError` lists the exception kinds the
  translated code can actually raise.  `unboundLocalError` models Python's
  `UnboundLocalError` (a local referenced before assignment).
* Each translated function returns a `RunOut`: its result (or the exception
  that escaped), the log lines it emitted in order, and the durations of the
  `time.sleep` calls it performed in order.
-/

inductive Json where
  | null : Json
  | b : Bool → Json
  | num : Int → Json
  | str : String → Json
  | arr : List Json → Json
  | obj : List (String × Json) → Json

inductive LogLevel where
  | info : LogLevel
  | warning : LogLevel
  | error : LogLevel
deriving DecidableEq

abbrev LogEntry := LogLevel × String

inductive PyError where
  | threadsApiError : String → PyError
  | unboundLocalError : PyError
  | keyError : PyError
  | indexError : PyError
  | typeError : PyError
  | attributeError : PyError
deriving DecidableEq

/-- Outcome of one HTTP GET, as seen by `make_api_request`. -/
inductive ApiOutcome where
  | success : Json → ApiOutcome
  | httpFailure : Nat → Option Json → String → ApiOutcome
  | networkFailure : ApiOutcome

/-- Result of running one translated function: Python return value or escaped
exception, ordered log lines, ordered sleep durations. -/
structure RunOut (α : Type) where
  res : Except PyError α
  logs : List LogEntry
  sleeps : List ℚ

/-- Lookup of a string key in a JSON object (Python dict with string keys). -/
def Json.lookup : Json → String → Option Json
  | .obj kvs, k => (kvs.find? (fun kv => kv.1 == k)).map Prod.snd
  | _, _ => none

/-- Python truthiness of a value (`if error_info:`). -/
def Json.isTruthy : Json → Bool
  | .null => false
  | .b x => x
  | .num n => n != 0
  | .str s => s != ""
  | .arr xs => !xs.isEmpty
  | .obj kvs => !kvs.isEmpty

/-- Python `x is None` test. -/
def Json.isNull : Json → Bool
  | .null => true
  | _ => false

/-- Python subscript `x[k]` with a string key: KeyError on a dict missing the
key, TypeError on anything that is not a dict. -/
def Json.getItemStr : Json → String → Except PyError Json
  | .obj kvs, k =>
    match Json.lookup (.obj kvs) k with
    | some v => .ok v
    | none => .error .keyError
  | _, _ => .error .typeError

/-- Python subscript `x[i]` with an integer index: IndexError past the end of
a list or string, KeyError on a string-keyed dict, TypeError otherwise. -/
def Json.getItemNat : Json → Nat → Except PyError Json
  | .arr xs, i =>
    match xs.get? i with
    | some v => .ok v
    | none => .error .indexError
  | .str s, i =>
    match s.toList.get? i with
    | some c => .ok (.str (String.singleton c))
    | none => .error .indexError
  | .obj _, _ => .error .keyError
  | _, _ => .error .typeError

/-- Python `x.get(k, default)`: AttributeError when `x` is not a dict. -/
def Json.dictGet : Json → String → Json → Except PyError Json
  | .obj kvs, k, dflt => .ok ((Json.lookup (.obj kvs) k).getD dflt)
  | _, _, _ => .error .attributeError

/-- Python `len(x)`: TypeError on values without a length. -/
def pyLen : Json → Except PyError Nat
  | .arr xs => .ok xs.length
  | .str s => .ok s.length
  | .obj kvs => .ok kvs.length
  | _ => .error .typeError

/-- Python iteration `for x in v`: list elements, string characters, dict
keys; TypeError on non-iterables. -/
def pyIter : Json → Except PyError (List Json)
  | .arr xs => .ok xs
  | .str s => .ok (s.toList.map (fun c => Json.str (String.singleton c)))
  | .obj kvs => .ok (kvs.map (fun kv => Json.str kv.1))
  | _ => .error .typeError

mutual

/-- Python `repr` of a JSON-shaped value. -/
def pyRepr : Json → String
  | .null => "None"
  | .b true => "True"
  | .b false => "False"
  | .num n => toString n
  | .str s => "\x27" ++ s ++ "\x27"
  | .arr xs => "[" ++ pyReprArr xs ++ "]"
  | .obj kvs => "\x7b" ++ pyReprObj kvs ++ "\x7d"

def pyReprArr : List Json → String
  | [] => ""
  | [x] => pyRepr x
  | x :: xs => pyRepr x ++ ", " ++ pyReprArr xs

def pyReprObj : List (String × Json) → String
  | [] => ""
  | [kv] => "\x27" ++ kv.1 ++ "\x27: " ++ pyRepr kv.2
  | kv :: kvs => "\x27" ++ kv.1 ++ "\x27: " ++ pyRepr kv.2 ++ ", " ++ pyReprObj kvs

end

/-- Python `str` of a JSON-shaped value, as used by f-string interpolation. -/
def pyStr : Json → String
  | .null => "None"
  | .b true => "True"
  | .b false => "False"
  | .num n => toString n
  | .str s => s
  | .arr xs => pyRepr (.arr xs)
  | .obj kvs => pyRepr (.obj kvs)

/-- Python `str` applied to a `dict.get` result, where a missing key gives
the Python object `None`. -/
def pyStrOpt : Option Json → String
  | some j => pyStr j
  | none => "None"

/-- Python `in-place add` of a JSON-shaped value to an integer accumulator
(`total_views += views`): booleans coerce to 0 or 1, anything non-numeric is
a TypeError. -/
def pyAddInt : Int → Json → Except PyError Int
  | acc, .num n => .ok (acc + n)
  | acc, .b true => .ok (acc + 1)
  | acc, .b false => .ok acc
  | _, _ => .error .typeError

/-- Python `f-string` rendering `x:.2f` of the average (two decimals).  The
tie-breaking of binary floating point formatting is approximated by rational
rounding; no claim depends on this string. -/
def formatFixed2 (q : ℚ) : String :=
  let c : Int := round (q * 100)
  let sign := if c < 0 then "-" else ""
  let a := c.natAbs
  sign ++ toString (a / 100) ++ "." ++ (if a % 100 < 10 then "0" else "") ++ toString (a % 100)

def postsUrl : String := "https://graph.threads.net/v1.0/me/threads"

def viewsUrl (mediaId : String) : String :=
  "https://graph.threads.net/v1.0/" ++ mediaId ++ "/insights"

/-- Translation of `make_api_request` (src/main.py lines 15-44).

`try: response = requests.get(...); response.raise_for_status(); return
response.json()` followed by `except requests.RequestException as e:` which
reads `response.status_code`, extracts a structured `error` object only when
the status is exactly 400, logs, and raises `ThreadsApiError`.

When the GET itself raised with no response received, the handler's read of
`response.status_code` hits an unassigned local: `UnboundLocalError`.
When the status is 400 and the body parses to a non-dict, `.get` on it is an
`AttributeError`; likewise when the extracted `error` value is truthy but not
a dict.  Both escape the handler before any log line is emitted. -/
def make_api_request (url : String) (out : ApiOutcome) : RunOut Json :=
  match out with
  | .success body => ⟨.ok body, [], []⟩
  | .networkFailure => ⟨.error .unboundLocalError, [], []⟩
  | .httpFailure status body excText =>
    let einfo : Except PyError Json :=
      if status == 400 then
        match body with
        | none => .ok (.obj [])
        | some j => Json.dictGet j "error" (.obj [])
      else .ok (.obj [])
    match einfo with
    | .error e => ⟨.error e, [], []⟩
    | .ok info =>
      if info.isTruthy then
        match info with
        | .obj kvs =>
          let msg := pyStr ((Json.lookup (.obj kvs) "message").getD (.str excText))
          let code := pyStrOpt (Json.lookup (.obj kvs) "code")
          let sub := pyStrOpt (Json.lookup (.obj kvs) "error_subcode")
          ⟨.error (.threadsApiError url),
            [(.error, "API request failed: " ++ msg ++ " (Code: " ++ code ++ ", Subcode: " ++ sub ++ ")")],
            []⟩
        | _ => ⟨.error .attributeError, [], []⟩
      else
        ⟨.error (.threadsApiError url),
          [(.error, "API request failed: " ++ excText)], []⟩

/-- Translation of the access chain `data["data"][0]["values"][0]["value"]`
in `get_post_views` (src/main.py line 95). -/
def extractViews (data : Json) : Except PyError Json := do
  let d ← Json.getItemStr data "data"
  let d0 ← Json.getItemNat d 0
  let vs ← Json.getItemStr d0 "values"
  let v0 ← Json.getItemNat vs 0
  Json.getItemStr v0 "value"

/-- Translation of `get_post_views` (src/main.py lines 78-100): one insights
GET, the `data[0].values[0].value` access chain, and
`except (ThreadsApiError, KeyError, IndexError)` returning `None`
(= `Json.null`).  Other exception kinds escape. -/
def get_post_views (mediaId : String) (out : ApiOutcome) (username : String) : RunOut Json :=
  let log0 : LogEntry :=
    (.info, "Fetching views for post " ++ mediaId ++ " (User: \x27" ++ username ++ "\x27)")
  let failLog : LogEntry :=
    (.error, "Failed to fetch views for post " ++ mediaId ++ " (User: \x27" ++ username ++ "\x27)")
  let m := make_api_request (viewsUrl mediaId) out
  let attempt : Except PyError Json :=
    match m.res with
    | .ok data => extractViews data
    | .error e => .error e
  match attempt with
  | .ok v =>
    ⟨.ok v,
      log0 :: m.logs ++ [(.info, "Post " ++ mediaId ++ " has " ++ pyStr v ++ " views (User: \x27" ++ username ++ "\x27)")],
      []⟩
  | .error (.threadsApiError _) => ⟨.ok .null, log0 :: m.logs ++ [failLog], []⟩
  | .error .keyError => ⟨.ok .null, log0 :: m.logs ++ [failLog], []⟩
  | .error .indexError => ⟨.ok .null, log0 :: m.logs ++ [failLog], []⟩
  | .error e => ⟨.error e, log0 :: m.logs, []⟩

/-- Translation of `get_user_posts` (src/main.py lines 46-76): one GET, then
`data.get("data", [])`, a log line using `len(posts)`, and
`except ThreadsApiError` returning `[]`.  Other exception kinds escape.
The date window and field list only shape the request parameters, which the
transport oracle abstracts over. -/
def get_user_posts (out : ApiOutcome) (days : Int) (username : String) : RunOut Json :=
  let log0 : LogEntry :=
    (.info, "Fetching posts for user \x27" ++ username ++ "\x27 for the last " ++ toString days ++ " days")
  let m := make_api_request postsUrl out
  let attempt : Except PyError (Json × Nat) :=
    match m.res with
    | .ok data =>
      match Json.dictGet data "data" (.arr []) with
      | .ok posts =>
        match pyLen posts with
        | .ok n => .ok (posts, n)
        | .error e => .error e
      | .error e => .error e
    | .error e => .error e
  match attempt with
  | .ok pn =>
    ⟨.ok pn.1,
      log0 :: m.logs ++ [(.info, "Retrieved " ++ toString pn.2 ++ " posts for user \x27" ++ username ++ "\x27")],
      []⟩
  | .error (.threadsApiError _) =>
    ⟨.ok (.arr []),
      log0 :: m.logs ++ [(.error, "Failed to fetch posts for user \x27" ++ username ++ "\x27")],
      []⟩
  | .error e => ⟨.error e, log0 :: m.logs, []⟩

/-- Translation of the post loop in `get_average_impressions` (src/main.py
lines 118-125).  For each post: `post["id"]`, a `get_post_views` call (the
oracle supplies one outcome per call, shifted on recursion), the
`if views is not None` accumulation, then `time.sleep(0.5)` — recorded even
when the lookup failed, and skipped only when an exception escapes first. -/
def aggLoop (viewOuts : Nat → ApiOutcome) (username : String) :
    List Json → Int → Nat → RunOut (Int × Nat)
  | [], total, count => ⟨.ok (total, count), [], []⟩
  | post :: rest, total, count =>
    match Json.getItemStr post "id" with
    | .error e => ⟨.error e, [], []⟩
    | .ok mid =>
      let gv := get_post_views (pyStr mid) (viewOuts 0) username
      match gv.res with
      | .error e => ⟨.error e, gv.logs, []⟩
      | .ok v =>
        if v.isNull then
          let L := aggLoop (fun j => viewOuts (j + 1)) username rest total count
          ⟨L.res, gv.logs ++ L.logs, ((1 : ℚ) / 2) :: L.sleeps⟩
        else
          match pyAddInt total v with
          | .error e => ⟨.error e, gv.logs, []⟩
          | .ok total2 =>
            let L := aggLoop (fun j => viewOuts (j + 1)) username rest total2 (count + 1)
            ⟨L.res, gv.logs ++ L.logs, ((1 : ℚ) / 2) :: L.sleeps⟩

/-- Translation of the `try:` block of `get_average_impressions` (src/main.py
lines 113-133): fetch posts, iterate them, run the loop, then either the
average with an info log or `None` with a warning log. -/
def aggBody (postsOut : ApiOutcome) (viewOuts : Nat → ApiOutcome) (days : Int)
    (username : String) : RunOut (Option ℚ) :=
  let gp := get_user_posts postsOut days username
  match gp.res with
  | .error e => ⟨.error e, gp.logs, gp.sleeps⟩
  | .ok posts =>
    match pyIter posts with
    | .error e => ⟨.error e, gp.logs, gp.sleeps⟩
    | .ok items =>
      let L := aggLoop viewOuts username items 0 0
      match L.res with
      | .error e => ⟨.error e, gp.logs ++ L.logs, gp.sleeps ++ L.sleeps⟩
      | .ok tc =>
        if 0 < tc.2 then
          ⟨.ok (some ((tc.1 : ℚ) / (tc.2 : ℚ))),
            gp.logs ++ L.logs ++
              [(.info, "Average impressions for user \x27" ++ username ++ "\x27: " ++
                formatFixed2 ((tc.1 : ℚ) / (tc.2 : ℚ)) ++ " (based on " ++ toString tc.2 ++ " posts)")],
            gp.sleeps ++ L.sleeps⟩
        else
          ⟨.ok none,
            gp.logs ++ L.logs ++
              [(.warning, "No valid posts found to calculate average impressions for user \x27" ++ username ++ "\x27")],
            gp.sleeps ++ L.sleeps⟩

/-- Translation of the `except ThreadsApiError` handler wrapping the body of
`get_average_impressions` (src/main.py lines 135-137), with the opening info
log line prepended. -/
def catchThreadsCalc (username : String) (log0 : LogEntry) (body : RunOut (Option ℚ)) :
    RunOut (Option ℚ) :=
  match body.res with
  | .error (.threadsApiError _) =>
    ⟨.ok none,
      log0 :: body.logs ++ [(.error, "Failed to calculate average impressions for user \x27" ++ username ++ "\x27")],
      body.sleeps⟩
  | _ => ⟨body.res, log0 :: body.logs, body.sleeps⟩

/-- Translation of `get_average_impressions` (src/main.py lines 102-137). -/
def get_average_impressions (postsOut : ApiOutcome) (viewOuts : Nat → ApiOutcome)
    (days : Int) (username : String) : RunOut (Option ℚ) :=
  catchThreadsCalc username
    (.info, "Calculating average impressions for user \x27" ++ username ++ "\x27 for the last " ++ toString days ++ " days")
    (aggBody postsOut viewOuts days username)

/-- Recognizer for an escaped `ThreadsApiError`. -/
def isThreadsErr {α : Type} : Except PyError α → Bool
  | .error (.threadsApiError _) => true
  | _ => false

/-- An insights response body carrying `v` at `data[0].values[0].value`. -/
def viewBody (v : Json) : Json :=
  .obj [("data", .arr [.obj [("values", .arr [.obj [("value", v)]])]])]

/-- One well-formed post record as the scenario theorems use it. -/
def scenPost : Json := .obj [("id", .str "p")]

/-- Oracle outcome for one view lookup: a successful response carrying the
given integer, or a plain 500 failure (whose `ThreadsApiError` the View
Fetcher absorbs into `None`). -/
def scenOut : Option Int → ApiOutcome
  | some v => .success (viewBody (.num v))
  | none => .httpFailure 500 none "500 Server Error"

/-- Oracle for the whole sequence of view lookups. -/
def scenOuts (vs : List (Option Int)) : Nat → ApiOutcome :=
  fun i => scenOut (vs.getD i (some 0))

/-- Posts response carrying one well-formed post per planned lookup. -/
def scenPostsOut (vs : List (Option Int)) : ApiOutcome :=
  .success (.obj [("data", .arr (vs.map (fun _ => scenPost)))])

/-- One full run of the pipeline in which the Post Fetcher returns one post
per entry of `vs` and the lookup for post `i` yields the view count `vs[i]`
(`none` = a failed lookup, absorbed into `None`). -/
def scenRun (vs : List (Option Int)) (u : String) : RunOut (Option ℚ) :=
  get_average_impressions (scenPostsOut vs) (scenOuts vs) 7 u

/-- Body used by the C7 scenario: the 400 response with a structured error. -/
def err400Body : Json :=
  .obj [("error", .obj [("message", .str "Invalid token"), ("code", .num 190), ("error_subcode", .num 463)])]

theorem catchThreads_full_ok (u : String) (l : LogEntry) (b : RunOut (Option ℚ))
    (x : Option ℚ) (h : b.res = .ok x) :
    catchThreadsCalc u l b = ⟨.ok x, l :: b.logs, b.sleeps⟩ := by
  simp only [catchThreadsCalc]
  rw [h]

theorem catchThreads_res_ok {u : String} {l : LogEntry} {b : RunOut (Option ℚ)}
    {x : Option ℚ} (h : b.res = .ok x) : (catchThreadsCalc u l b).res = .ok x := by
  rw [catchThreads_full_ok u l b x h]

theorem catchThreads_sleeps (u : String) (l : LogEntry) (b : RunOut (Option ℚ)) :
    (catchThreadsCalc u l b).sleeps = b.sleeps := by
  simp only [catchThreadsCalc]
  cases hb : b.res with
  | ok x => rfl
  | error e => cases e <;> rfl

theorem scen_gup_res (vs : List (Option Int)) (u : String) :
    (get_user_posts (scenPostsOut vs) 7 u).res = .ok (.arr (vs.map (fun _ => scenPost))) := rfl

theorem scen_gup_sleeps (vs : List (Option Int)) (u : String) :
    (get_user_posts (scenPostsOut vs) 7 u).sleeps = [] := rfl

theorem aggLoop_scen_some (vs : List (Option Int)) (u : String) (n total : Int) (count : Nat) :
    aggLoop (scenOuts (some n :: vs)) u ((some n :: vs).map (fun _ => scenPost)) total count
      = ⟨(aggLoop (scenOuts vs) u (vs.map (fun _ => scenPost)) (total + n) (count + 1)).res,
         (get_post_views "p" (scenOut (some n)) u).logs
           ++ (aggLoop (scenOuts vs) u (vs.map (fun _ => scenPost)) (total + n) (count + 1)).logs,
         ((1 : ℚ) / 2) :: (aggLoop (scenOuts vs) u (vs.map (fun _ => scenPost)) (total + n) (count + 1)).sleeps⟩ := rfl

theorem aggLoop_scen_none (vs : List (Option Int)) (u : String) (total : Int) (count : Nat) :
    aggLoop (scenOuts (Option.none :: vs)) u ((Option.none :: vs).map (fun _ => scenPost)) total count
      = ⟨(aggLoop (scenOuts vs) u (vs.map (fun _ => scenPost)) total count).res,
         (get_post_views "p" (scenOut Option.none) u).logs
           ++ (aggLoop (scenOuts vs) u (vs.map (fun _ => scenPost)) total count).logs,
         ((1 : ℚ) / 2) :: (aggLoop (scenOuts vs) u (vs.map (fun _ => scenPost)) total count).sleeps⟩ := rfl

theorem scenAggLoop (vs : List (Option Int)) : ∀ (u : String) (total : Int) (count : Nat),
    (aggLoop (scenOuts vs) u (vs.map (fun _ => scenPost)) total count).res
        = .ok (total + (vs.filterMap id).sum, count + (vs.filterMap id).length)
    ∧ (aggLoop (scenOuts vs) u (vs.map (fun _ => scenPost)) total count).sleeps
        = List.replicate vs.length ((1 : ℚ) / 2) := by
  induction vs with
  | nil =>
    intro u total count
    constructor
    · show Except.ok (total, count) = _
      simp
    · rfl
  | cons v vs ih =>
    intro u total count
    cases v with
    | some n =>
      rw [aggLoop_scen_some]
      constructor
      · show (aggLoop (scenOuts vs) u (vs.map (fun _ => scenPost)) (total + n) (count + 1)).res = _
        rw [(ih u (total + n) (count + 1)).1]
        simp only [List.filterMap_cons, id, List.sum_cons, List.length_cons,
          Except.ok.injEq, Prod.mk.injEq]
        constructor
        · ring
        · ring
      · show ((1 : ℚ) / 2) :: (aggLoop (scenOuts vs) u (vs.map (fun _ => scenPost)) (total + n) (count + 1)).sleeps = _
        rw [(ih u (total + n) (count + 1)).2]
        simp [List.replicate_succ]
    | none =>
      rw [aggLoop_scen_none]
      constructor
      · show (aggLoop (scenOuts vs) u (vs.map (fun _ => scenPost)) total count).res = _
        rw [(ih u total count).1]
        simp only [List.filterMap_cons, id]
      · show ((1 : ℚ) / 2) :: (aggLoop (scenOuts vs) u (vs.map (fun _ => scenPost)) total count).sleeps = _
        rw [(ih u total count).2]
        simp [List.replicate_succ]

theorem scen_aggBody_pos (vs : List (Option Int)) (u : String)
    (h : 0 < (vs.filterMap id).length) :
    aggBody (scenPostsOut vs) (scenOuts vs) 7 u
      = ⟨.ok (some (((vs.filterMap id).sum : ℚ) / ((vs.filterMap id).length : ℚ))),
         (get_user_posts (scenPostsOut vs) 7 u).logs
           ++ (aggLoop (scenOuts vs) u (vs.map (fun _ => scenPost)) 0 0).logs
           ++ [(.info, "Average impressions for user \x27" ++ u ++ "\x27: "
                ++ formatFixed2 (((vs.filterMap id).sum : ℚ) / ((vs.filterMap id).length : ℚ))
                ++ " (based on " ++ toString (vs.filterMap id).length ++ " posts)")],
         (get_user_posts (scenPostsOut vs) 7 u).sleeps
           ++ (aggLoop (scenOuts vs) u (vs.map (fun _ => scenPost)) 0 0).sleeps⟩ := by
  have hl := (scenAggLoop vs u 0 0).1
  simp only [zero_add] at hl
  simp only [aggBody, scen_gup_res, pyIter, hl, if_pos h]

theorem scen_aggBody_none (vs : List (Option Int)) (u : String)
    (h : (vs.filterMap id).length = 0) :
    aggBody (scenPostsOut vs) (scenOuts vs) 7 u
      = ⟨.ok none,
         (get_user_posts (scenPostsOut vs) 7 u).logs
           ++ (aggLoop (scenOuts vs) u (vs.map (fun _ => scenPost)) 0 0).logs
           ++ [(.warning, "No valid posts found to calculate average impressions for user \x27" ++ u ++ "\x27")],
         (get_user_posts (scenPostsOut vs) 7 u).sleeps
           ++ (aggLoop (scenOuts vs) u (vs.map (fun _ => scenPost)) 0 0).sleeps⟩ := by
  have hl := (scenAggLoop vs u 0 0).1
  simp only [zero_add] at hl
  have hn : ¬ (0 < (vs.filterMap id).length) := by omega
  simp only [aggBody, scen_gup_res, pyIter, hl, if_neg hn]

theorem scenRun_res (vs : List (Option Int)) (u : String) :
    (scenRun vs u).res
      = if 0 < (vs.filterMap id).length
        then .ok (some (((vs.filterMap id).sum : ℚ) / ((vs.filterMap id).length : ℚ)))
        else .ok none := by
  by_cases h : 0 < (vs.filterMap id).length
  · rw [if_pos h]
    exact catchThreads_res_ok (by rw [scen_aggBody_pos vs u h])
  · rw [if_neg h]
    have h0 : (vs.filterMap id).length = 0 := by omega
    exact catchThreads_res_ok (by rw [scen_aggBody_none vs u h0])

theorem getLast_cons_append_concat {α : Type} (a w : α) (l m : List α) :
    (a :: (l ++ m ++ [w])).getLast? = some w := by
  have e : a :: (l ++ m ++ [w]) = (a :: (l ++ m)) ++ [w] := by simp
  rw [e, List.getLast?_concat]

theorem scenRun_warn_logs (vs : List (Option Int)) (u : String)
    (h : (vs.filterMap id).length = 0) :
    (scenRun vs u).logs.getLast?
      = some (LogLevel.warning,
          "No valid posts found to calculate average impressions for user \x27" ++ u ++ "\x27") := by
  simp only [scenRun, get_average_impressions]
  rw [catchThreads_full_ok _ _ _ none (by rw [scen_aggBody_none vs u h])]
  rw [scen_aggBody_none vs u h]
  exact getLast_cons_append_concat _ _ _ _

theorem gpv_res_user (mid : String) (out : ApiOutcome) (u1 u2 : String) :
    (get_post_views mid out u1).res = (get_post_views mid out u2).res := by
  simp only [get_post_views]
  cases hm : (make_api_request (viewsUrl mid) out).res with
  | ok data =>
    dsimp only
    cases he : extractViews data with
    | ok v => rfl
    | error e => cases e <;> rfl
  | error e => cases e <;> rfl

theorem gup_res_user (out : ApiOutcome) (days : Int) (u1 u2 : String) :
    (get_user_posts out days u1).res = (get_user_posts out days u2).res := by
  simp only [get_user_posts]
  cases hm : (make_api_request postsUrl out).res with
  | ok data =>
    dsimp only
    cases hd : Json.dictGet data "data" (.arr []) with
    | ok posts =>
      dsimp only
      cases hn : pyLen posts with
      | ok n => rfl
      | error e => cases e <;> rfl
    | error e => cases e <;> rfl
  | error e => cases e <;> rfl

theorem aggLoop_res_user (items : List Json) : ∀ (viewOuts : Nat → ApiOutcome)
    (total : Int) (count : Nat) (u1 u2 : String),
    (aggLoop viewOuts u1 items total count).res = (aggLoop viewOuts u2 items total count).res := by
  induction items with
  | nil => intros; rfl
  | cons post rest ih =>
    intro viewOuts total count u1 u2
    simp only [aggLoop]
    cases hid : Json.getItemStr post "id" with
    | error e => rfl
    | ok mid =>
      dsimp only
      rw [gpv_res_user (pyStr mid) (viewOuts 0) u1 u2]
      cases hv : (get_post_views (pyStr mid) (viewOuts 0) u2).res with
      | error e => rfl
      | ok v =>
        dsimp only
        cases hn : v.isNull with
        | true =>
          rw [if_pos rfl]
          exact ih (fun j => viewOuts (j + 1)) total count u1 u2
        | false =>
          rw [if_neg Bool.false_ne_true]
          cases ha : pyAddInt total v with
          | error e => rfl
          | ok total2 => exact ih (fun j => viewOuts (j + 1)) total2 (count + 1) u1 u2

theorem aggBody_res_user (postsOut : ApiOutcome) (viewOuts : Nat → ApiOutcome)
    (days : Int) (u1 u2 : String) :
    (aggBody postsOut viewOuts days u1).res = (aggBody postsOut viewOuts days u2).res := by
  simp only [aggBody]
  rw [gup_res_user postsOut days u1 u2]
  cases hg : (get_user_posts postsOut days u2).res with
  | error e => rfl
  | ok posts =>
    dsimp only
    cases hi : pyIter posts with
    | error e => rfl
    | ok items =>
      dsimp only
      rw [aggLoop_res_user items viewOuts 0 0 u1 u2]
      cases hl : (aggLoop viewOuts u2 items 0 0).res with
      | error e => rfl
      | ok tc => by_cases h : 0 < tc.2 <;> simp [h]

/-- C1: for every list of posts returned by the Post Fetcher and every
assignment of view-lookup outcomes (an integer view count or absent/null per
post), `get_average_impressions` returns the sum of the successfully obtained
view counts divided by the number of posts whose lookup succeeded; posts
whose lookup returned absent/null contribute to neither the numerator nor the
denominator. -/
theorem c1_average_skips_failed_lookups (vs : List (Option Int)) (u : String)
    (h : 0 < (vs.filterMap id).length) :
    (scenRun vs u).res
      = .ok (some (((vs.filterMap id).sum : ℚ) / ((vs.filterMap id).length : ℚ))) := by
  rw [scenRun_res, if_pos h]

/-- C1 witness: views [100, null, 300] yield the average 200. -/
theorem c1_average_witness :
    (scenRun [some 100, Option.none, some 300] "u").res = .ok (some (200 : ℚ)) := by
  have h := c1_average_skips_failed_lookups [some 100, Option.none, some 300] "u" (by decide)
  have e : List.filterMap (id : Option Int → Option Int) [some 100, Option.none, some 300]
      = ([100, 300] : List Int) := rfl
  rw [e] at h
  norm_num [List.sum_cons, List.sum_nil] at h
  exact h

/-- C2: `get_average_impressions` returns absent/null exactly when the count
of successful view lookups is zero (zero posts, or every lookup absent), and
in that case the run's final log line is the no-data warning (a warning, not
an error). -/
theorem c2_none_iff_no_successful_lookup (vs : List (Option Int)) (u : String) :
    ((scenRun vs u).res = .ok none ↔ (vs.filterMap id).length = 0)
    ∧ ((vs.filterMap id).length = 0 →
        (scenRun vs u).logs.getLast?
          = some (LogLevel.warning,
              "No valid posts found to calculate average impressions for user \x27" ++ u ++ "\x27")) := by
  constructor
  · rw [scenRun_res]
    by_cases h : 0 < (vs.filterMap id).length
    · rw [if_pos h]
      simp only [Except.ok.injEq, reduceCtorEq, false_iff]
      omega
    · rw [if_neg h]
      simp only [Except.ok.injEq, true_iff]
      omega
  · intro h
    exact scenRun_warn_logs vs u h

/-- C2 witness: one post whose lookup fails yields null and a final warning
log line. -/
theorem c2_none_witness :
    ((scenRun [Option.none] "u").res = .ok none)
    ∧ (scenRun [Option.none] "u").logs.getLast?
        = some (LogLevel.warning,
            "No valid posts found to calculate average impressions for user \x27" ++ "u" ++ "\x27") := by
  have h := c2_none_iff_no_successful_lookup [Option.none] "u"
  exact ⟨h.1.mpr rfl, h.2 rfl⟩

/-- C3: on a network failure where no response was received, the exception
handler of `make_api_request` reads the never-assigned local `response` and
raises UnboundLocalError instead of the documented ThreadsApiError. -/
theorem c3_network_failure_raises_unbound_local :
    (make_api_request postsUrl .networkFailure).res = .error .unboundLocalError
    ∧ isThreadsErr (make_api_request postsUrl .networkFailure).res = false :=
  ⟨rfl, rfl⟩

/-- C4 counterexample: a successful call whose response body is a bare number
(a wrong-typed deviation from the data[0].values[0].value shape) makes
`get_post_views` raise TypeError instead of returning absent/null. -/
theorem c4_counterexample_wrong_type_raises :
    (get_post_views "m" (.success (.num 5)) "u").res = .error .typeError := rfl

/-- C4 (amended): `get_post_views` returns absent/null, and does not raise,
when the API call fails with ThreadsApiError, and when the response deviates
from the expected shape in a way that raises KeyError or IndexError (missing
keys or empty lists); deviations raising other exception kinds (wrong types)
are not absorbed. -/
theorem c4_catches_api_key_index_failures (mid : String) (out : ApiOutcome) (u : String) :
    ((make_api_request (viewsUrl mid) out).res = .error (.threadsApiError (viewsUrl mid)) →
      (get_post_views mid out u).res = .ok .null)
    ∧ (∀ data : Json, (make_api_request (viewsUrl mid) out).res = .ok data →
        (extractViews data = .error .keyError ∨ extractViews data = .error .indexError) →
        (get_post_views mid out u).res = .ok .null) := by
  constructor
  · intro h
    simp only [get_post_views, h]
  · intro data h hd
    simp only [get_post_views, h]
    rcases hd with hd | hd <;> simp only [hd]

/-- C4 witness: a 500 failure is absorbed to null, and a response lacking the
`data` key (KeyError) is absorbed to null. -/
theorem c4_catches_witness :
    (get_post_views "m" (.httpFailure 500 none "boom") "u").res = .ok .null
    ∧ (get_post_views "m" (.success (.obj [])) "u").res = .ok .null :=
  ⟨(c4_catches_api_key_index_failures "m" (.httpFailure 500 none "boom") "u").1 rfl,
   (c4_catches_api_key_index_failures "m" (.success (.obj [])) "u").2 (.obj []) rfl (Or.inl rfl)⟩

/-- C5: on a network failure with no response received, the
UnboundLocalError raised inside `make_api_request` is not the ThreadsApiError
that `get_user_posts` catches, so it escapes `get_user_posts` instead of
degrading to an empty list. -/
theorem c5_network_failure_escapes_get_user_posts :
    (get_user_posts .networkFailure 7 "u").res = .error .unboundLocalError := rfl

/-- C6 counterexample: when the Post Fetcher response contains a post record
without an `id` key, the loop's `post["id"]` raises KeyError, which no
handler absorbs, so an exception surfaces from `get_average_impressions`. -/
theorem c6_counterexample_missing_id_key_escapes :
    (get_average_impressions (.success (.obj [("data", .arr [.obj []])]))
        (fun _ => .success .null) 7 "u").res = .error .keyError := rfl

/-- C6 (amended): the domain error ThreadsApiError itself never surfaces from
`get_average_impressions` for any API outcome — it is absorbed at the Post
Fetcher and View Fetcher boundaries (and by the aggregator's own handler) —
though other exception kinds can surface. -/
theorem c6_threads_api_error_never_escapes (postsOut : ApiOutcome)
    (viewOuts : Nat → ApiOutcome) (days : Int) (u : String) :
    isThreadsErr (get_average_impressions postsOut viewOuts days u).res = false := by
  simp only [get_average_impressions, catchThreadsCalc]
  cases hb : (aggBody postsOut viewOuts days u).res with
  | ok x => rfl
  | error e => cases e <;> rfl

/-- C7: a 400 response with body error object message "Invalid token", code
190, subcode 463 logs exactly "API request failed: Invalid token (Code: 190,
Subcode: 463)" at error level and raises ThreadsApiError carrying the URL;
for any other failing status, structured extraction is skipped and the raw
exception text is logged. -/
theorem c7_error_extraction_only_for_400 :
    ((make_api_request postsUrl (.httpFailure 400 (some err400Body) "400 Client Error")).res
        = .error (.threadsApiError postsUrl)
      ∧ (make_api_request postsUrl (.httpFailure 400 (some err400Body) "400 Client Error")).logs
        = [(.error, "API request failed: Invalid token (Code: 190, Subcode: 463)")])
    ∧ ∀ (url : String) (status : Nat) (body : Option Json) (excText : String),
        status ≠ 400 →
        (make_api_request url (.httpFailure status body excText)).res
            = .error (.threadsApiError url)
        ∧ (make_api_request url (.httpFailure status body excText)).logs
            = [(.error, "API request failed: " ++ excText)] := by
  refine ⟨⟨rfl, rfl⟩, ?_⟩
  intro url status body excText h
  have hs : (status == 400) = false := beq_eq_false_iff_ne.mpr h
  simp only [make_api_request, hs, if_false]
  exact ⟨rfl, rfl⟩

/-- C7 witness: a 500 failure logs the raw exception text and raises
ThreadsApiError. -/
theorem c7_extraction_witness :
    (make_api_request postsUrl (.httpFailure 500 none "boom")).res
        = .error (.threadsApiError postsUrl)
    ∧ (make_api_request postsUrl (.httpFailure 500 none "boom")).logs
        = [(.error, "API request failed: " ++ "boom")] :=
  c7_error_extraction_only_for_400.2 postsUrl 500 none "boom" (by decide)

/-- C8: during one completed run over n posts, the 0.5-time-unit pacing sleep
is performed exactly n times — once after each view lookup, successful or
failed, including after the last one. -/
theorem c8_sleep_once_per_post (vs : List (Option Int)) (u : String) :
    (scenRun vs u).sleeps = List.replicate vs.length ((1 : ℚ) / 2) := by
  have hs := (scenAggLoop vs u 0 0).2
  simp only [scenRun, get_average_impressions]
  rw [catchThreads_sleeps]
  by_cases h : 0 < (vs.filterMap id).length
  · rw [scen_aggBody_pos vs u h]
    show (get_user_posts (scenPostsOut vs) 7 u).sleeps ++ _ = _
    rw [scen_gup_sleeps, hs]
    simp
  · have h0 : (vs.filterMap id).length = 0 := by omega
    rw [scen_aggBody_none vs u h0]
    show (get_user_posts (scenPostsOut vs) 7 u).sleeps ++ _ = _
    rw [scen_gup_sleeps, hs]
    simp

/-- C9 counterexample: a response carrying -1 at data[0].values[0].value makes
`get_post_views` return the negative value -1 as a present result. -/
theorem c9_counterexample_negative_view_returned :
    (get_post_views "m" (.success (viewBody (.num (-1)))) "u").res = .ok (.num (-1))
    ∧ (-1 : Int) < 0 :=
  ⟨rfl, by decide⟩

/-- C9 (amended): `get_post_views` performs no validation on the view count —
it returns exactly the value the response carries at data[0].values[0].value,
so a present result is a non-negative integer only when the response supplies
one. -/
theorem c9_views_returned_unvalidated (mid u : String) (n : Int) :
    (get_post_views mid (.success (viewBody (.num n))) u).res = .ok (.num n) := rfl

/-- C10: the username argument influences only logging, never the computed
result — two runs receiving the same sequence of API responses but different
usernames return the same value. -/
theorem c10_username_does_not_affect_result (postsOut : ApiOutcome)
    (viewOuts : Nat → ApiOutcome) (days : Int) (u1 u2 : String) :
    (get_average_impressions postsOut viewOuts days u1).res
      = (get_average_impressions postsOut viewOuts days u2).res := by
  simp only [get_average_impressions, catchThreadsCalc]
  rw [aggBody_res_user postsOut viewOuts days u1 u2]
  cases hb : (aggBody postsOut viewOuts days u2).res with
  | ok x => rfl
  | error e => cases e <;> rfl
